import Mathlib

/-!
Verification of the AIATL repository's two host functions.

Embedded source:
- `src/recipe_agent/agent.py` — `sort_recipes_by_nutrition` (with its inner
  `get_score`), the module-level `_MODEL` configuration value, and the
  `root_agent` wiring.
- `src/my-app/culinary-adk/manager_agent/agent.py` — `sous_chef_guide`.

Modelling conventions:
- Python runtime values are embedded as the inductive type `PyVal`.
  Numbers (int and float collapsed) are modelled as rationals; the IEEE
  special values NaN and infinity are outside the model.
- Python dicts are association lists with string keys (the only keys the
  program ever uses).
- Exceptions are modelled with `Option`: an operation that can raise
  returns `Option.none` on the raising paths, and Python `try/except`
  blocks become `Option.getD`.
- The `print` side effects of `sous_chef_guide` are captured as the list
  of emitted output lines, returned alongside the function's return value.
-/

namespace RecipeAgent

/-- Embedding of the Python runtime values this program manipulates:
`None`, booleans, numbers (int and float collapsed into rationals),
strings, lists, and string-keyed dicts. -/
inductive PyVal : Type where
  | none : PyVal
  | bool : Bool → PyVal
  | num : ℚ → PyVal
  | str : String → PyVal
  | list : List PyVal → PyVal
  | dict : List (String × PyVal) → PyVal

/-- Lookup in a Python dict modelled as an association list:
`d[k]` when present, `Option.none` when the key is absent
(the raising or defaulted branch of Python `dict.get`). -/
def dictGet (d : List (String × PyVal)) (k : String) : Option PyVal :=
  match d with
  | [] => Option.none
  | (k', v) :: rest => if k' = k then some v else dictGet rest k

/-- Numeric value of a list of decimal digit characters, most significant
first. -/
def digitsVal (cs : List Char) : ℕ :=
  cs.foldl (fun acc c => 10 * acc + (c.toNat - 48)) 0

/-- Parse of an unsigned decimal literal, as accepted by Python
`float(str)` after the optional sign: digits, optionally followed by a
point and further digits, or a point followed by digits (`"12"`, `"12."`,
`"12.5"`, `".5"`). Anything else is rejected (`Option.none`, the raising
branch of `float`). Surrounding whitespace, exponents, underscores and
the `inf`/`nan` spellings are outside the model. -/
def parseUnsigned (cs : List Char) : Option ℚ :=
  let intPart := cs.takeWhile Char.isDigit
  let rest := cs.dropWhile Char.isDigit
  match rest with
  | [] =>
      if intPart.isEmpty then Option.none
      else some ((digitsVal intPart : ℚ))
  | c :: frac =>
      if c = '.' && frac.all Char.isDigit && (!intPart.isEmpty || !frac.isEmpty) then
        some ((digitsVal intPart : ℚ) + (digitsVal frac : ℚ) / (10 : ℚ) ^ frac.length)
      else Option.none

/-- Python `float(s)` on a string: optional sign then an unsigned decimal
literal; `Option.none` models the `ValueError` raising branch. -/
def pyFloatOfString (s : String) : Option ℚ :=
  match s.toList with
  | [] => Option.none
  | c :: rest =>
      if c = '+' then parseUnsigned rest
      else if c = '-' then (parseUnsigned rest).map Neg.neg
      else parseUnsigned (c :: rest)

/-- Python `float(x)` on an arbitrary value: numbers pass through,
booleans coerce to 0/1, strings are parsed; `float` of `None`, a list or
a dict raises (`Option.none`). -/
def pyFloat : PyVal → Option ℚ
  | .num q => some q
  | .bool b => some (if b then 1 else 0)
  | .str s => pyFloatOfString s
  | _ => Option.none

/-- Embedding of the inner `get_score` of `sort_recipes_by_nutrition`
(src/recipe_agent/agent.py lines 19-23):
`float(r.get("nutrition", {}).get("score", 0))` with every raising path
(`r` not a dict, the `nutrition` value not a dict, `float` failing)
caught by the inner `try/except` and turned into `0.0`. -/
def get_score (r : PyVal) : ℚ :=
  match r with
  | .dict d =>
      match (dictGet d "nutrition").getD (.dict []) with
      | .dict nd => (pyFloat ((dictGet nd "score").getD (.num 0))).getD 0
      | _ => 0
  | _ => 0

/-- The comparison under which `sorted(recipes, key=get_score,
reverse=True)` stably orders the list: `a` may precede `b` exactly when
`get_score b ≤ get_score a`. -/
def scoreLe (a b : PyVal) : Bool :=
  decide (get_score b ≤ get_score a)

/-- Embedding of `sorted(recipes, key=get_score, reverse=True)` at
src/recipe_agent/agent.py line 25: a stable sort under `scoreLe`,
producing a new list. -/
def sortedByScore (l : List PyVal) : List PyVal :=
  l.mergeSort scoreLe

/-- Embedding of `sort_recipes_by_nutrition` (src/recipe_agent/agent.py
lines 6-28). A non-list input takes the early-return branch of line 16;
a list input reaches line 25. Nothing on the list branch can raise in
the model (every raising sub-operation is already absorbed inside
`get_score`), so the outer `try/except` of lines 15/27 contributes no
further case; totality of this definition is the shallow counterpart of
the outer catch. -/
def sort_recipes_by_nutrition (recipes : PyVal) : PyVal :=
  match recipes with
  | .list l =>
      .dict [("status", .str "success"), ("recipes", .list (sortedByScore l))]
  | _ =>
      .dict [("status", .str "error"),
             ("error_message", .str "Expected a list of recipes")]

/-- Field accessor for the `status` entry of a result dict. -/
def statusOf (v : PyVal) : Option PyVal :=
  match v with
  | .dict d => dictGet d "status"
  | _ => Option.none

/-- Field accessor for the `recipes` entry of a result dict. -/
def recipesOf (v : PyVal) : Option PyVal :=
  match v with
  | .dict d => dictGet d "recipes"
  | _ => Option.none

/-- Field accessor for the `error_message` entry of a result dict. -/
def errorMessageOf (v : PyVal) : Option PyVal :=
  match v with
  | .dict d => dictGet d "error_message"
  | _ => Option.none

/-- Specification-side description of score extraction: the value at path
`nutrition.score` converted by `float`, with `Option.none` on any failure
(element not a dict, `nutrition` key absent or not a dict, `score` key
absent, `float` conversion failing). Used to compare `get_score` against
the spec's words: extraction failure is substituted by `0.0`. -/
def extract_score (r : PyVal) : Option ℚ :=
  match r with
  | .dict d =>
      match dictGet d "nutrition" with
      | some (.dict nd) =>
          match dictGet nd "score" with
          | some v => pyFloat v
          | Option.none => Option.none
      | _ => Option.none
  | _ => Option.none

/-- State-passing view of a call `sort_recipes_by_nutrition(recipes)` on a
list input: the pair of the returned value and the state of the caller's
list object after the call. Line 25 uses the `sorted` builtin, which
allocates a fresh list and leaves its argument untouched (it does not use
the mutating `list.sort` method), so the second component is the
unchanged input. -/
def sort_recipes_by_nutrition_call (l : List PyVal) : PyVal × List PyVal :=
  (sort_recipes_by_nutrition (.list l), l)

/-- Embedding of `sous_chef_guide`
(src/my-app/culinary-adk/manager_agent/agent.py lines 16-25): the two
`print` calls are captured as the list of emitted lines, paired with the
function's return value. No operation in the body can raise. -/
def sous_chef_guide (step_instruction : String) (step_duration : Int) :
    List String × String :=
  (["\n[Sous Chef Agent: LIVE GUIDE]",
    "Instruction: " ++ step_instruction ++ " (Approx. " ++ toString step_duration ++ " mins)"],
   "SUCCESS: User confirmed completion of this cooking step.")

/-- Embedding of the module-level configuration read at
src/recipe_agent/agent.py line 32:
`os.environ.get("RECIPE_AGENT_MODEL", "gemini-1.5-flash-8b")`, over an
environment modelled as a partial map from variable names to values. -/
def _MODEL (env : String → Option String) : String :=
  (env "RECIPE_AGENT_MODEL").getD "gemini-1.5-flash-8b"

/-- The locally observable data of an ADK `Agent`: its name, the model
identifier it is configured with, and its function tools. -/
structure AgentDef : Type where
  name : String
  model : String
  tools : List (PyVal → PyVal)

/-- Embedding of the `root_agent` of src/recipe_agent/agent.py lines
34-38, as a function of the process environment (which `_MODEL` reads). -/
def root_agent (env : String → Option String) : AgentDef :=
  { name := "recipe_chef_agent"
    model := _MODEL env
    tools := [sort_recipes_by_nutrition] }

/-- Invocation of the i-th tool of an agent on a value; `Option.none`
when no such tool exists. -/
def runTool (a : AgentDef) (i : ℕ) (v : PyVal) : Option PyVal :=
  (a.tools.get? i).map (fun f => f v)

/-- The sort comparison is transitive. -/
theorem scoreLe_trans (a b c : PyVal) :
    scoreLe a b = true → scoreLe b c = true → scoreLe a c = true := by
  simp only [scoreLe, decide_eq_true_eq]
  exact fun h1 h2 => le_trans h2 h1

/-- The sort comparison is total. -/
theorem scoreLe_total (a b : PyVal) : (scoreLe a b || scoreLe b a) = true := by
  simp only [scoreLe, Bool.or_eq_true, decide_eq_true_eq]
  exact le_total _ _

/-- The code's `get_score` agrees with the spec's description of score
extraction: the extracted value when extraction succeeds, `0.0` when it
fails in any way. -/
theorem get_score_eq_extract (r : PyVal) :
    get_score r = (extract_score r).getD 0 := by
  cases r with
  | dict d =>
      simp only [get_score, extract_score]
      cases h : dictGet d "nutrition" with
      | none => simp [h, dictGet, pyFloat]
      | some v =>
          cases v <;> simp [h]
          case dict nd =>
            cases h2 : dictGet nd "score" with
            | none => simp [h2, pyFloat]
            | some w => simp [h2]
  | none => rfl
  | bool b => rfl
  | num q => rfl
  | str s => rfl
  | list l => rfl

/-- C1: for every list input, `sort_recipes_by_nutrition` returns a
result with status `"success"` whose `recipes` field is a permutation of
the input ordered by non-increasing extracted `nutrition.score`, where an
element whose score is missing or invalid is given the score `0.0`. -/
theorem sorter_success_perm_sorted (l : List PyVal) :
    statusOf (sort_recipes_by_nutrition (.list l)) = some (.str "success")
    ∧ recipesOf (sort_recipes_by_nutrition (.list l)) = some (.list (sortedByScore l))
    ∧ (sortedByScore l).Perm l
    ∧ (sortedByScore l).Pairwise (fun a b => get_score b ≤ get_score a)
    ∧ ∀ r, get_score r = (extract_score r).getD 0 := by
  refine ⟨rfl, rfl, List.mergeSort_perm l scoreLe, ?_, get_score_eq_extract⟩
  have h := List.sorted_mergeSort scoreLe_trans scoreLe_total l
  exact h.imp (fun hab => by simpa [scoreLe] using hab)

/-- C2: the sort is stable: for every list input and every score value,
the subsequence of output elements with that extracted score equals the
subsequence of input elements with that score, in the same order. -/
theorem sorter_stable (l : List PyVal) (s : ℚ) :
    (sortedByScore l).filter (fun r => decide (get_score r = s))
      = l.filter (fun r => decide (get_score r = s)) := by
  set p : PyVal → Bool := fun r => decide (get_score r = s) with hp
  have hps : ∀ a ∈ l.filter p, get_score a = s := by
    intro a ha
    have := List.of_mem_filter ha
    simpa [hp] using this
  have hpair : (l.filter p).Pairwise (fun a b => scoreLe a b = true) := by
    refine List.pairwise_of_forall_mem_list ?_
    intro a ha b hb
    simp only [scoreLe, decide_eq_true_eq, hps a ha, hps b hb]
    exact le_refl s
  have hsub : (l.filter p).Sublist (sortedByScore l) :=
    List.sublist_mergeSort scoreLe_trans scoreLe_total hpair (List.filter_sublist l)
  have hself : (l.filter p).filter p = l.filter p :=
    List.filter_eq_self.mpr fun a ha => List.of_mem_filter ha
  have hsub2 : (l.filter p).Sublist ((sortedByScore l).filter p) := by
    have := List.Sublist.filter p hsub
    rwa [hself] at this
  have hperm : ((sortedByScore l).filter p).Perm (l.filter p) :=
    List.Perm.filter p (List.mergeSort_perm l scoreLe)
  exact (hsub2.eq_of_length hperm.length_eq.symm).symm

/-- C3: for every non-list input, `sort_recipes_by_nutrition` returns
exactly the error dict with message `"Expected a list of recipes"`. -/
theorem sorter_non_list_error (v : PyVal) (h : ∀ l, v ≠ PyVal.list l) :
    sort_recipes_by_nutrition v
      = .dict [("status", .str "error"),
               ("error_message", .str "Expected a list of recipes")] := by
  cases v
  case list l => exact absurd rfl (h l)
  all_goals rfl

/-- C3 witness: the string input of the spec's Example 2. -/
theorem sorter_non_list_error_witness :
    sort_recipes_by_nutrition (.str "not a list")
      = .dict [("status", .str "error"),
               ("error_message", .str "Expected a list of recipes")] :=
  sorter_non_list_error (.str "not a list") (fun _ h => nomatch h)

/-- C4: for every instruction string and duration integer,
`sous_chef_guide` returns exactly the literal success confirmation
string; totality of the definition embodies that it never raises. -/
theorem sous_chef_guide_returns_success (step_instruction : String) (step_duration : Int) :
    (sous_chef_guide step_instruction step_duration).2
      = "SUCCESS: User confirmed completion of this cooking step." := rfl

/-- C5: for every input, `sort_recipes_by_nutrition` returns a
well-formed structured result: either status `"success"` with a recipes
list, or status `"error"` with a string message. Totality of the
definition is the shallow counterpart of the outer try/except: no fault
escapes to the caller. -/
theorem sorter_total_structured (v : PyVal) :
    (statusOf (sort_recipes_by_nutrition v) = some (.str "success")
      ∧ ∃ rs, recipesOf (sort_recipes_by_nutrition v) = some (.list rs))
    ∨ (statusOf (sort_recipes_by_nutrition v) = some (.str "error")
      ∧ ∃ m, errorMessageOf (sort_recipes_by_nutrition v) = some (.str m)) := by
  cases v
  case list l => exact Or.inl ⟨rfl, ⟨sortedByScore l, rfl⟩⟩
  all_goals exact Or.inr ⟨rfl, ⟨"Expected a list of recipes", rfl⟩⟩

/-- C6: the call does not mutate the input list: after the call the
caller's list is unchanged, and the returned `recipes` field is a new
sequence (a permutation of the input built by the `sorted` builtin). -/
theorem sorter_no_mutation (l : List PyVal) :
    (sort_recipes_by_nutrition_call l).2 = l
    ∧ recipesOf (sort_recipes_by_nutrition_call l).1 = some (.list (sortedByScore l))
    ∧ (sortedByScore l).Perm l :=
  ⟨rfl, rfl, List.mergeSort_perm l scoreLe⟩

/-- C7: the sorter is idempotent on its ordering: applying it to the
recipes field of its own successful output yields the same result as
the first call, and two calls on the same input agree. -/
theorem sorter_idempotent (l : List PyVal) :
    sort_recipes_by_nutrition (.list (sortedByScore l))
      = sort_recipes_by_nutrition (.list l)
    ∧ sort_recipes_by_nutrition (.list l) = sort_recipes_by_nutrition (.list l) := by
  refine ⟨?_, rfl⟩
  have hs : (sortedByScore l).Pairwise (fun a b => scoreLe a b = true) :=
    List.sorted_mergeSort scoreLe_trans scoreLe_total l
  have h : sortedByScore (sortedByScore l) = sortedByScore l :=
    List.mergeSort_of_sorted hs
  simp only [sort_recipes_by_nutrition, sortedByScore] at h ⊢
  rw [h]

/-- C8: the sorter tool's result does not depend on the externally
supplied model identifier: the tool invoked through the agent built from
any two environments gives identical results on every input. -/
theorem sorter_model_independent (env1 env2 : String → Option String)
    (i : ℕ) (v : PyVal) :
    runTool (root_agent env1) i v = runTool (root_agent env2) i v := rfl

/-- C9: when an element's `nutrition.score` is a string that parses as a
number, `get_score` uses the parsed numeric value as the sort key rather
than substituting `0.0`. -/
theorem get_score_parses_numeric_string (d nd : List (String × PyVal))
    (s : String) (q : ℚ)
    (h1 : dictGet d "nutrition" = some (.dict nd))
    (h2 : dictGet nd "score" = some (.str s))
    (h3 : pyFloatOfString s = some q) :
    get_score (.dict d) = q := by
  simp [get_score, h1, h2, pyFloat, h3]

/-- C9 witness: a score given as the string `"90"` sorts as `90`. -/
theorem get_score_parses_numeric_string_witness :
    get_score (.dict [("nutrition", .dict [("score", .str "90")])]) = 90 :=
  get_score_parses_numeric_string _ _ "90" 90 rfl rfl (by decide)

/-- C10: every list input, even one whose elements are not mappings,
yields status `"success"`, and every element on which score extraction
fails is given the score `0.0`. -/
theorem sorter_success_on_any_list (l : List PyVal) :
    statusOf (sort_recipes_by_nutrition (.list l)) = some (.str "success")
    ∧ ∀ r, extract_score r = Option.none → get_score r = 0 := by
  refine ⟨rfl, ?_⟩
  intro r h
  rw [get_score_eq_extract, h]
  rfl

/-- C10 witness: a list of a number, a non-numeric string and `None`
sorts with status success, and the `None` element gets score 0. -/
theorem sorter_success_on_any_list_witness :
    statusOf (sort_recipes_by_nutrition (.list [.num 3, .str "abc", .none]))
      = some (.str "success")
    ∧ get_score PyVal.none = 0 :=
  ⟨(sorter_success_on_any_list [.num 3, .str "abc", .none]).1,
   (sorter_success_on_any_list [.num 3, .str "abc", .none]).2 PyVal.none rfl⟩

end RecipeAgent
